import Mathlib

/-!
# Query-with-filters example (`src/c/src/main/example.c`)

A shallow embedding of the example program: `main`, the two query callbacks
`query_cb` and `query_cb_map`, and the helpers `cleanup` and `insert_records`.

The program talks to a database client library and to an example harness, neither of
which is part of the source file. Every call statement of the C code becomes one step
that appends an `Event` to the trace of the `World`; calls that hand back a result read
it from an `Env`, which fixes one reply per call site (each call site runs at most once
in a process; the five puts are told apart by key, the two queries by callback). A query
call blocks while the library hands the values of the `Env` to the callback, one call
of the callback per value; the calls issued by the callback are part of the trace.
-/

namespace QueryWithFilters

/-! ## Library data -/

/-- Status code of a library call (`as_status`). -/
abbrev as_status := Int

/-- The success status. -/
def AEROSPIKE_OK : as_status := 0

/-- Error record filled in by library calls (`as_error`). -/
structure as_error where
  code : Int
  message : String
deriving DecidableEq, Repr

/-- What a status-returning library call hands back: its return value and the `err` it
filled in. -/
structure Reply where
  status : as_status
  err : as_error
deriving DecidableEq, Repr

/-- A scalar database value. -/
inductive as_scalar where
  | integer (i : Int)
  | string (s : String)
deriving DecidableEq, Repr

/-- A named field of a record. -/
structure as_bin where
  name : String
  value : as_scalar
deriving DecidableEq, Repr

/-- A record: a bounded set of named fields. -/
structure as_record where
  capacity : Nat
  bins : List as_bin
deriving DecidableEq, Repr

/-- A key: namespace, set and integer identifier. -/
structure as_key where
  ns : String
  set : String
  value : Int
deriving DecidableEq, Repr

/-- The generic tagged value handed to query callbacks. -/
inductive as_val where
  | scalar (v : as_scalar)
  | list (l : List as_scalar)
  | map (m : List (as_scalar × as_scalar))
  | record (r : as_record)
deriving DecidableEq, Repr

/-- Index data types. -/
inductive as_index_type where
  | AS_INDEX_STRING
  | AS_INDEX_NUMERIC
deriving DecidableEq, Repr

/-- A where-predicate value. -/
inductive as_predicate_value where
  | string_equals (s : String)
  | integer_equals (i : Int)
  | integer_range (lo hi : Int)
deriving DecidableEq, Repr

/-- A where-predicate: bin name and condition. -/
structure as_predicate where
  bin : String
  value : as_predicate_value
deriving DecidableEq, Repr

/-- The where-clause of a query: a bounded sequence of predicates. -/
structure as_query_predicates where
  capacity : Nat
  entries : List as_predicate
deriving DecidableEq, Repr

/-- An array list of values, used for UDF arguments. -/
structure as_arraylist where
  capacity : Nat
  block_size : Nat
  elements : List as_scalar
deriving DecidableEq, Repr

/-- A UDF application attached to a query. -/
structure as_udf_call where
  module : String
  function : String
  arglist : List as_scalar
deriving DecidableEq, Repr

/-- A query object: namespace, set, where-clause and optional UDF application. -/
structure as_query where
  ns : String
  set : String
  where_ : as_query_predicates
  apply : Option as_udf_call
deriving DecidableEq, Repr

/-- The two callbacks defined by the program. -/
inductive Callback where
  | query_cb
  | query_cb_map
deriving DecidableEq, Repr

/-- An argument of a `LOG` line. -/
inductive LogArg where
  | int (i : Int)
  | str (s : String)
deriving DecidableEq, Repr

/-! ## Constants -/

def UDF_MODULE : String := "profile"
def UDF_USER_PATH : String := "../udf/"
def UDF_FILE_PATH : String := UDF_USER_PATH ++ UDF_MODULE ++ ".lua"
def USERNAME_INDEX_NAME : String := "profileindex"

/-! ## Events, environment and world -/

/-- One call statement of the program. -/
inductive Event where
  | example_get_opts (argv : List String) (which_opts : String)
  | example_connect_to_aerospike_with_udf_config (udf_user_path : String)
  | example_remove_test_records
  | example_remove_index (index_name : String)
  | example_register_udf (path : String)
  | example_read_test_records
  | example_cleanup
  | example_dump_record (r : as_record)
  | aerospike_index_create (ns set bin name : String) (type : as_index_type)
  | aerospike_index_create_wait (interval_ms : Nat)
  | aerospike_key_put (key : as_key) (r : as_record)
  | aerospike_query_foreach (query : as_query) (callback : Callback)
  | as_query_init (ns set : String)
  | as_query_where_inita (n : Nat)
  | as_query_where (bin : String) (value : as_predicate_value)
  | as_query_apply (module function : String) (arglist : as_arraylist)
  | as_query_destroy
  | as_arraylist_init (capacity block_size : Nat)
  | as_arraylist_append_str (s : String)
  | as_key_init_int64 (ns set : String) (value : Int)
  | as_record_inita (n : Nat)
  | as_record_set_str (name value : String)
  | as_val_tostring (v : as_val)
  | free (s : String)
  | LOG (fmt : String) (args : List LogArg)
deriving DecidableEq, Repr

/-- The store of the test set: a map from key to record, kept as an association list
with at most one entry per key. -/
abbrev Store := List (as_key × as_record)

/-- The surroundings of one process run: the harness globals, one reply per call site,
and for each query the values the library hands to its callback, in order (`none` is
the null value that ends a query). -/
structure Env where
  argv : List String
  EXAMPLE_MULTI_KEY_OPTS : String
  g_namespace : String
  g_set : String
  example_get_opts : Bool
  example_register_udf : Bool
  aerospike_index_create : Reply
  aerospike_index_create_wait : Reply
  aerospike_key_put : as_key → Reply
  example_read_test_records : Bool
  aerospike_query_foreach : Callback → Reply
  as_val_tostring : as_val → String
  query_values : Callback → List (Option as_val)

/-- The observable state: the calls issued so far, oldest first, and the store. -/
structure World where
  trace : List Event
  store : Store
deriving DecidableEq, Repr

/-- How the process ends: `main` returns, or `exit` is called. -/
inductive Outcome where
  | returned (value : Int)
  | exited (status : Int)
deriving DecidableEq, Repr

/-- Record one call. -/
def emit (e : Event) (w : World) : World :=
  ⟨w.trace ++ [e], w.store⟩

/-! ## Library and harness calls -/

/-- Modelled from the spec: `as_record_inita` yields a record with room for `n` bins and
none set. -/
def as_record_inita (n : Nat) : as_record :=
  ⟨n, []⟩

/-- Replace the value of the bin called `name`, if there is one. -/
def replace_bin (name : String) (v : as_scalar) : List as_bin → List as_bin
  | [] => []
  | b :: bs => if b.name = name then ⟨name, v⟩ :: bs else b :: replace_bin name v bs

/-- Modelled from the spec: `as_record_set_str` sets (replaces) the named bin of the
record; a new bin is added only while the record has room. -/
def as_record_set_str (r : as_record) (name value : String) : as_record :=
  if r.bins.any (fun b => b.name = name) then
    ⟨r.capacity, replace_bin name (.string value) r.bins⟩
  else if r.bins.length < r.capacity then
    ⟨r.capacity, r.bins ++ [⟨name, .string value⟩]⟩
  else r

/-- Modelled from the spec: a key is namespace, set and identifier; this initialises one
with an integer identifier. -/
def as_key_init_int64 (ns set : String) (value : Int) : as_key :=
  ⟨ns, set, value⟩

/-- Modelled from the spec: put overwrites the record stored under the key. -/
def store_put (k : as_key) (r : as_record) (st : Store) : Store :=
  if st.any (fun e => e.1 = k) then st.map (fun e => if e.1 = k then (k, r) else e)
  else st ++ [(k, r)]

/-- Modelled from the spec: `as_query_init` produces a query on the set with an empty
predicate list and no UDF application. -/
def as_query_init (ns set : String) : as_query :=
  ⟨ns, set, ⟨0, []⟩, none⟩

/-- Modelled from the spec: `as_query_where_inita` reserves room for `n` where-predicates
and leaves the predicate list empty. -/
def as_query_where_inita (q : as_query) (n : Nat) : as_query :=
  ⟨q.ns, q.set, ⟨n, []⟩, q.apply⟩

/-- Modelled from the spec: `as_query_where` adds a where-predicate while there is
room. -/
def as_query_where (q : as_query) (bin : String) (v : as_predicate_value) : as_query :=
  if q.where_.entries.length < q.where_.capacity then
    ⟨q.ns, q.set, ⟨q.where_.capacity, q.where_.entries ++ [⟨bin, v⟩]⟩, q.apply⟩
  else q

/-- Modelled from the spec: the predicate value built by the `as_string_equals` macro. -/
def as_string_equals (s : String) : as_predicate_value :=
  .string_equals s

/-- Modelled from the spec: `as_query_apply` attaches a UDF application to the query. -/
def as_query_apply (q : as_query) (module function : String) (arglist : as_arraylist) :
    as_query :=
  ⟨q.ns, q.set, q.where_, some ⟨module, function, arglist.elements⟩⟩

/-- Modelled from the spec: `as_arraylist_init` yields an empty array list. -/
def as_arraylist_init (capacity block_size : Nat) : as_arraylist :=
  ⟨capacity, block_size, []⟩

/-- Modelled from the spec: `as_arraylist_append_str` appends a string; a full list grows
by `block_size`, and not at all when that is 0. -/
def as_arraylist_append_str (l : as_arraylist) (s : String) : as_arraylist :=
  if l.elements.length < l.capacity then
    ⟨l.capacity, l.block_size, l.elements ++ [.string s]⟩
  else if l.block_size = 0 then l
  else ⟨l.capacity + l.block_size, l.block_size, l.elements ++ [.string s]⟩

/-- Modelled from the spec: the record view of a tagged value, present exactly when the
value is a record. -/
def as_record_fromval : as_val → Option as_record
  | .record r => some r
  | _ => none

/-- Modelled from the spec: the map view of a tagged value, present exactly when the value
is a map. -/
def as_map_fromval : as_val → Option (List (as_scalar × as_scalar))
  | .map m => some m
  | _ => none

/-- Modelled from the spec: the harness deletes any pre-existing test data. -/
def example_remove_test_records (w : World) : World :=
  ⟨w.trace ++ [.example_remove_test_records], []⟩

/-- Modelled from the spec: the put call. The reply comes from the environment, and a
successful put overwrites the key in the store. -/
def aerospike_key_put (env : Env) (key : as_key) (r : as_record) (w : World) :
    Reply × World :=
  let reply := env.aerospike_key_put key
  (reply, ⟨w.trace ++ [.aerospike_key_put key r],
    if reply.status = AEROSPIKE_OK then store_put key r w.store else w.store⟩)

/-! ## The program -/

/-- The callback of the aggregation query (`query_cb_map`, lines 186-208). The `udata`
argument is unused. Returns the callback result and the calls it issued. -/
def query_cb_map (env : Env) (p_val : Option as_val) : Bool × List Event :=
  match p_val with
  | none => (true, [.LOG "query callback returned null - query is complete" []])
  | some v =>
    -- Because of the UDF used, we expect an as_map to be returned.
    if (as_map_fromval v).isNone then
      (true, [.LOG "query callback returned non-as_map object" []])
    else
      let val_as_str := env.as_val_tostring v
      (true, [.as_val_tostring v,
              .LOG "query callback returned %s" [.str val_as_str],
              .free val_as_str])

/-- The callback of the filtered query (`query_cb`, lines 210-230). The `udata` argument
is unused. Returns the callback result and the calls it issued. -/
def query_cb (p_val : Option as_val) : Bool × List Event :=
  match p_val with
  | none => (true, [.LOG "query callback returned null - query is complete" []])
  | some v =>
    -- The query did not use a UDF, so the value should be a record.
    match as_record_fromval v with
    | none => (true, [.LOG "query callback returned non-as_record object" []])
    | some p_rec =>
      (true, [.LOG "query callback returned record:" [], .example_dump_record p_rec])

/-- Run the callback a query was executed with. -/
def run_callback (env : Env) (callback : Callback) (p_val : Option as_val) :
    Bool × List Event :=
  match callback with
  | .query_cb => query_cb p_val
  | .query_cb_map => query_cb_map env p_val

/-- Modelled from the spec: the callback is invoked once per value, inside the blocking
query call; a callback that returns false stops the query. The result is the calls the
callback issued. -/
def deliver (env : Env) (callback : Callback) : List (Option as_val) → List Event
  | [] => []
  | v :: vs =>
    if (run_callback env callback v).1 then
      (run_callback env callback v).2 ++ deliver env callback vs
    else (run_callback env callback v).2

/-- Modelled from the spec: the query call. It blocks while the callback is run on the
values of the environment, then hands back the reply. -/
def aerospike_query_foreach (env : Env) (query : as_query) (callback : Callback)
    (w : World) : Reply × World :=
  (env.aerospike_query_foreach callback,
    ⟨w.trace ++ [.aerospike_query_foreach query callback]
      ++ deliver env callback (env.query_values callback), w.store⟩)

/-- The helper `cleanup` (lines 237-243). -/
def cleanup (w : World) : World :=
  let w := example_remove_test_records w
  let w := emit (.example_remove_index USERNAME_INDEX_NAME) w
  emit .example_cleanup w

/-- The line logged when a put fails. -/
def put_failed (err : as_error) : Event :=
  .LOG "aerospike_key_put() returned %d - %s" [.int err.code, .str err.message]

/-- The helper `insert_records` (lines 245-296). -/
def insert_records (env : Env) (w : World) : Bool × World :=
  let rec_ := as_record_inita 2
  let w := emit (.as_record_inita 2) w

  let key := as_key_init_int64 env.g_namespace env.g_set 1
  let w := emit (.as_key_init_int64 env.g_namespace env.g_set 1) w
  let rec_ := as_record_set_str rec_ "username" "Charlie"
  let w := emit (.as_record_set_str "username" "Charlie") w
  let rec_ := as_record_set_str rec_ "password" "cpass"
  let w := emit (.as_record_set_str "password" "cpass") w
  let (reply, w) := aerospike_key_put env key rec_ w
  if reply.status ≠ AEROSPIKE_OK then (false, emit (put_failed reply.err) w) else

  let key := as_key_init_int64 env.g_namespace env.g_set 2
  let w := emit (.as_key_init_int64 env.g_namespace env.g_set 2) w
  let rec_ := as_record_set_str rec_ "username" "Bill"
  let w := emit (.as_record_set_str "username" "Bill") w
  let rec_ := as_record_set_str rec_ "password" "hknfpkj"
  let w := emit (.as_record_set_str "password" "hknfpkj") w
  let (reply, w) := aerospike_key_put env key rec_ w
  if reply.status ≠ AEROSPIKE_OK then (false, emit (put_failed reply.err) w) else

  let key := as_key_init_int64 env.g_namespace env.g_set 3
  let w := emit (.as_key_init_int64 env.g_namespace env.g_set 3) w
  let rec_ := as_record_set_str rec_ "username" "Doug"
  let w := emit (.as_record_set_str "username" "Doug") w
  let rec_ := as_record_set_str rec_ "password" "dj6554"
  let w := emit (.as_record_set_str "password" "dj6554") w
  let (reply, w) := aerospike_key_put env key rec_ w
  if reply.status ≠ AEROSPIKE_OK then (false, emit (put_failed reply.err) w) else

  let key := as_key_init_int64 env.g_namespace env.g_set 4
  let w := emit (.as_key_init_int64 env.g_namespace env.g_set 4) w
  let rec_ := as_record_set_str rec_ "username" "Mary"
  let w := emit (.as_record_set_str "username" "Mary") w
  let rec_ := as_record_set_str rec_ "password" "ghjks"
  let w := emit (.as_record_set_str "password" "ghjks") w
  let (reply, w) := aerospike_key_put env key rec_ w
  if reply.status ≠ AEROSPIKE_OK then (false, emit (put_failed reply.err) w) else

  let key := as_key_init_int64 env.g_namespace env.g_set 5
  let w := emit (.as_key_init_int64 env.g_namespace env.g_set 5) w
  let rec_ := as_record_set_str rec_ "username" "Julie"
  let w := emit (.as_record_set_str "username" "Julie") w
  let rec_ := as_record_set_str rec_ "password" "zzxzxvv"
  let w := emit (.as_record_set_str "password" "zzxzxvv") w
  let (reply, w) := aerospike_key_put env key rec_ w
  if reply.status ≠ AEROSPIKE_OK then (false, emit (put_failed reply.err) w) else

  (true, emit (.LOG "insert succeeded" []) w)

/-- The line logged when a query fails. -/
def query_failed (err : as_error) : Event :=
  .LOG "aerospike_query_foreach() returned %d - %s" [.int err.code, .str err.message]

/-- The line logged when index creation or the wait for it fails. -/
def index_failed (err : as_error) : Event :=
  .LOG "error(%d): %s" [.int err.code, .str err.message]

/-- The program `main` (lines 77-179), run from the world `w`. -/
def main (env : Env) (w : World) : Outcome × World :=
  -- Parse command line arguments.
  let w := emit (.example_get_opts env.argv env.EXAMPLE_MULTI_KEY_OPTS) w
  if !env.example_get_opts then (.exited (-1), w) else

  -- Connect to the aerospike database cluster.
  let w := emit (.example_connect_to_aerospike_with_udf_config UDF_USER_PATH) w

  -- Start clean.
  let w := example_remove_test_records w
  let w := emit (.example_remove_index USERNAME_INDEX_NAME) w

  let w := emit (.LOG "\nregister %s" [.str UDF_FILE_PATH]) w

  -- Register the UDF in the database cluster.
  let w := emit (.example_register_udf UDF_FILE_PATH) w
  if !env.example_register_udf then (.exited (-1), emit .example_cleanup w) else

  let w := emit (.LOG "create index %s" [.str USERNAME_INDEX_NAME]) w

  let w := emit (.aerospike_index_create env.g_namespace env.g_set "username"
    USERNAME_INDEX_NAME .AS_INDEX_STRING) w
  let w :=
    if env.aerospike_index_create.status = AEROSPIKE_OK then
      let w := emit (.aerospike_index_create_wait 0) w
      if env.aerospike_index_create_wait.status ≠ AEROSPIKE_OK then
        emit (index_failed env.aerospike_index_create_wait.err) w
      else w
    else
      emit (index_failed env.aerospike_index_create.err) w

  let w := emit (.LOG "insert records" []) w

  let (ok, w) := insert_records env w
  if !ok then (.exited (-1), cleanup w) else

  let w := emit (.LOG "\nread records" []) w

  let w := emit .example_read_test_records w
  if !env.example_read_test_records then (.exited (-1), cleanup w) else

  -- Create an as_query object.
  let query := as_query_init env.g_namespace env.g_set
  let w := emit (.as_query_init env.g_namespace env.g_set) w

  -- Generate an as_query.where condition.
  let query := as_query_where_inita query 1
  let w := emit (.as_query_where_inita 1) w
  let query := as_query_where query "username" (as_string_equals "Mary")
  let w := emit (.as_query_where "username" (as_string_equals "Mary")) w

  let w := emit (.LOG "\nexecuting query where username = Mary" []) w

  -- Execute the query. This call blocks - callbacks are made in the scope of
  -- this call.
  let (reply, w) := aerospike_query_foreach env query .query_cb w
  if reply.status ≠ AEROSPIKE_OK then
    let w := emit (query_failed reply.err) w
    let w := emit .as_query_destroy w
    (.exited (-1), cleanup w)
  else

  -- Reuse the as_query object for another query.
  let w := emit .as_query_destroy w
  let query := as_query_init env.g_namespace env.g_set
  let w := emit (.as_query_init env.g_namespace env.g_set) w

  -- Aggregate profile.check_password('ghjks') on test.profile where username = 'Mary'
  let args := as_arraylist_init 1 0
  let w := emit (.as_arraylist_init 1 0) w
  let args := as_arraylist_append_str args "ghjks"
  let w := emit (.as_arraylist_append_str "ghjks") w

  let query := as_query_apply query UDF_MODULE "check_password" args
  let w := emit (.as_query_apply UDF_MODULE "check_password" args) w

  let w := emit (.LOG "\nexecuting filter query where password = ghjks" []) w

  -- Execute the query. This call blocks - callbacks are made in the scope of
  -- this call.
  let (reply, w) := aerospike_query_foreach env query .query_cb_map w
  if reply.status ≠ AEROSPIKE_OK then
    let w := emit (query_failed reply.err) w
    let w := emit .as_query_destroy w
    (.exited (-1), cleanup w)
  else

  let w := emit .as_query_destroy w

  -- Cleanup and disconnect from the database cluster.
  let w := cleanup w

  let w := emit (.LOG "\nquery with multiple filters example successfully completed" []) w

  (.returned 0, w)

/-! ## Sample environments -/

/-- A reply reporting success. -/
def ok_reply : Reply := ⟨AEROSPIKE_OK, ⟨0, ""⟩⟩

/-- A reply reporting a server error. -/
def error_reply : Reply := ⟨1, ⟨1, "server error"⟩⟩

/-- Renders every value as the same text. -/
def plain_tostring (_ : as_val) : String := "value"

/-- The values of a run against a cluster that holds the sample records: the filtered
query finds the record of Mary, the aggregation query yields one map, and each query ends
with the null value. -/
def sample_values : Callback → List (Option as_val)
  | .query_cb =>
    [some (.record ⟨2, [⟨"username", .string "Mary"⟩, ⟨"password", .string "ghjks"⟩]⟩), none]
  | .query_cb_map => [some (.map [(.string "result", .integer 1)]), none]

/-- A run in which every call succeeds. -/
def ok_env : Env :=
  ⟨["example"], "h:p:n:s:K:", "test", "eg-set", true, true, ok_reply, ok_reply,
    fun _ => ok_reply, true, fun _ => ok_reply, plain_tostring, sample_values⟩

/-- The world at process start: no call made yet, and a store with no test records. -/
def start : World := ⟨[], []⟩

/-- A run in which the put for key 3 fails and every other call succeeds. -/
def put3_error_env : Env :=
  ⟨["example"], "h:p:n:s:K:", "test", "eg-set", true, true, ok_reply, ok_reply,
    fun k => if k.value = 3 then error_reply else ok_reply, true, fun _ => ok_reply,
    plain_tostring, sample_values⟩

/-- Calls into the harness or the cluster client (the `example_` and `aerospike_`
functions): the calls that can succeed or fail. Operations on local objects (`as_`
functions), `free` and log output are not among them. -/
def Event.is_oracle_call : Event → Bool
  | .example_get_opts _ _ => true
  | .example_connect_to_aerospike_with_udf_config _ => true
  | .example_remove_test_records => true
  | .example_remove_index _ => true
  | .example_register_udf _ => true
  | .example_read_test_records => true
  | .example_cleanup => true
  | .example_dump_record _ => true
  | .aerospike_index_create _ _ _ _ _ => true
  | .aerospike_index_create_wait _ => true
  | .aerospike_key_put _ _ => true
  | .aerospike_query_foreach _ _ => true
  | _ => false

/-- Log output. -/
def Event.is_log : Event → Bool
  | .LOG _ _ => true
  | _ => false

/-- The `example_cleanup` call. -/
def Event.is_example_cleanup : Event → Bool
  | .example_cleanup => true
  | _ => false

/-- The `example_dump_record` calls. -/
def Event.is_dump_record : Event → Bool
  | .example_dump_record _ => true
  | _ => false

/-- Log lines that print the text `s` as an argument. -/
def Event.logs_text (s : String) : Event → Bool
  | .LOG _ args => args.contains (.str s)
  | _ => false

/-- The calls a callback can issue: log output, `example_dump_record`,
`as_val_tostring` and `free`. -/
def Event.is_callback_event : Event → Bool
  | .LOG _ _ => true
  | .example_dump_record _ => true
  | .as_val_tostring _ => true
  | .free _ => true
  | _ => false

/-- The `example_dump_record` calls for the records among the values handed to a
callback, in order. -/
def dump_calls : List (Option as_val) → List Event
  | [] => []
  | some (.record r) :: vs => .example_dump_record r :: dump_calls vs
  | _ :: vs => dump_calls vs

/-- Initialisation and destruction of the query object. -/
def Event.is_query_init_or_destroy : Event → Bool
  | .as_query_init _ _ => true
  | .as_query_destroy => true
  | _ => false

/-- The `as_query_init` calls. -/
def Event.is_query_init : Event → Bool
  | .as_query_init _ _ => true
  | _ => false

/-- The `as_query_destroy` calls. -/
def Event.is_query_destroy : Event → Bool
  | .as_query_destroy => true
  | _ => false

/-- Follow the query object through a trace. The flag says whether the object is
initialised; the result is `none` as soon as it is initialised twice in a row,
destroyed while not initialised, or used (filled in or executed) while not
initialised. -/
def query_lifecycle : List Event → Bool → Option Bool
  | [], live => some live
  | .as_query_init _ _ :: es, live => if live then none else query_lifecycle es true
  | .as_query_destroy :: es, live => if live then query_lifecycle es false else none
  | .as_query_where_inita _ :: es, live => if live then query_lifecycle es live else none
  | .as_query_where _ _ :: es, live => if live then query_lifecycle es live else none
  | .as_query_apply _ _ _ :: es, live => if live then query_lifecycle es live else none
  | .aerospike_query_foreach _ _ :: es, live =>
    if live then query_lifecycle es live else none
  | _ :: es, live => query_lifecycle es live

/-- The queries executed with the given callback. -/
def queries_run (callback : Callback) : List Event → List as_query
  | [] => []
  | .aerospike_query_foreach q cb :: es =>
    if cb = callback then q :: queries_run callback es else queries_run callback es
  | _ :: es => queries_run callback es

/-- Modelled from the spec: selecting the records whose bin `bin` equals the string
`value`. -/
def select_string_equals (st : Store) (bin value : String) : List (as_key × as_record) :=
  st.filter (fun e => e.2.bins.any (fun b => b.name = bin ∧ b.value = .string value))

/-- The string stored in the bin `bin` of a record, if any. -/
def as_record_get_str (r : as_record) (bin : String) : Option String :=
  match r.bins.find? (fun b => b.name = bin) with
  | some ⟨_, .string s⟩ => some s
  | _ => none

/-- The integer keys of the puts issued, in order. -/
def put_keys : List Event → List Int
  | [] => []
  | .aerospike_key_put key _ :: es => key.value :: put_keys es
  | _ :: es => put_keys es

/-- The key `id` of the test set. -/
def test_key (env : Env) (id : Int) : as_key :=
  ⟨env.g_namespace, env.g_set, id⟩

/-- A record with the two bins `username` and `password`. -/
def profile (username password : String) : as_record :=
  ⟨2, [⟨"username", .string username⟩, ⟨"password", .string password⟩]⟩

/-- Whether the put for key `id` succeeds in the run described by `env`. -/
def put_ok (env : Env) (id : Int) : Prop :=
  (env.aerospike_key_put (test_key env id)).status = AEROSPIKE_OK

/-- Whether the query executed with `callback` succeeds in the run described by `env`. -/
def query_ok (env : Env) (callback : Callback) : Prop :=
  (env.aerospike_query_foreach callback).status = AEROSPIKE_OK

instance (env : Env) (id : Int) : Decidable (put_ok env id) :=
  inferInstanceAs (Decidable ((env.aerospike_key_put (test_key env id)).status = AEROSPIKE_OK))

instance (env : Env) (callback : Callback) : Decidable (query_ok env callback) :=
  inferInstanceAs (Decidable ((env.aerospike_query_foreach callback).status = AEROSPIKE_OK))

/-- Every call of the run described by `env` succeeds. -/
def all_calls_succeed (env : Env) : Prop :=
  env.example_get_opts = true ∧ env.example_register_udf = true
    ∧ env.aerospike_index_create.status = AEROSPIKE_OK
    ∧ env.aerospike_index_create_wait.status = AEROSPIKE_OK
    ∧ (put_ok env 1 ∧ put_ok env 2 ∧ put_ok env 3 ∧ put_ok env 4 ∧ put_ok env 5)
    ∧ env.example_read_test_records = true
    ∧ query_ok env .query_cb ∧ query_ok env .query_cb_map

instance (env : Env) : Decidable (all_calls_succeed env) := by
  unfold all_calls_succeed
  infer_instance

/-! ## Rewriting rules for the calls -/

theorem emit_mk (e : Event) (t : List Event) (s : Store) :
    emit e ⟨t, s⟩ = ⟨t ++ [e], s⟩ := rfl

theorem example_remove_test_records_mk (t : List Event) (s : Store) :
    example_remove_test_records ⟨t, s⟩ = ⟨t ++ [.example_remove_test_records], []⟩ := rfl

theorem aerospike_key_put_mk (env : Env) (k : as_key) (r : as_record) (t : List Event)
    (s : Store) :
    aerospike_key_put env k r ⟨t, s⟩ =
      (env.aerospike_key_put k, ⟨t ++ [.aerospike_key_put k r],
        if (env.aerospike_key_put k).status = AEROSPIKE_OK then store_put k r s else s⟩) :=
  rfl

theorem aerospike_query_foreach_mk (env : Env) (q : as_query) (cb : Callback)
    (t : List Event) (s : Store) :
    aerospike_query_foreach env q cb ⟨t, s⟩ =
      (env.aerospike_query_foreach cb,
        ⟨t ++ [.aerospike_query_foreach q cb] ++ deliver env cb (env.query_values cb), s⟩) :=
  rfl

theorem as_key_init_int64_eq (env : Env) (id : Int) :
    as_key_init_int64 env.g_namespace env.g_set id = test_key env id := rfl

theorem test_key_inj (env : Env) (a b : Int) : test_key env a = test_key env b ↔ a = b := by
  simp [test_key]

theorem set_str_1 :
    as_record_set_str (as_record_set_str (as_record_inita 2) "username" "Charlie")
      "password" "cpass" = profile "Charlie" "cpass" := by decide

theorem set_str_2 :
    as_record_set_str (as_record_set_str (profile "Charlie" "cpass") "username" "Bill")
      "password" "hknfpkj" = profile "Bill" "hknfpkj" := by decide

theorem set_str_3 :
    as_record_set_str (as_record_set_str (profile "Bill" "hknfpkj") "username" "Doug")
      "password" "dj6554" = profile "Doug" "dj6554" := by decide

theorem set_str_4 :
    as_record_set_str (as_record_set_str (profile "Doug" "dj6554") "username" "Mary")
      "password" "ghjks" = profile "Mary" "ghjks" := by decide

theorem set_str_5 :
    as_record_set_str (as_record_set_str (profile "Mary" "ghjks") "username" "Julie")
      "password" "zzxzxvv" = profile "Julie" "zzxzxvv" := by decide

/-! ## The calls issued by the callbacks during a query -/

theorem run_callback_events (env : Env) (cb : Callback) (v : Option as_val) :
    ∀ e ∈ (run_callback env cb v).2, e.is_callback_event = true := by
  cases cb <;> rcases v with _ | v
  · simp [run_callback, query_cb, Event.is_callback_event]
  · cases v <;> simp [run_callback, query_cb, as_record_fromval, Event.is_callback_event]
  · simp [run_callback, query_cb_map, Event.is_callback_event]
  · cases v <;> simp [run_callback, query_cb_map, as_map_fromval, Event.is_callback_event]

theorem deliver_events (env : Env) (cb : Callback) (vs : List (Option as_val)) :
    ∀ e ∈ deliver env cb vs, e.is_callback_event = true := by
  induction vs with
  | nil => simp [deliver]
  | cons v vs ih =>
    intro e he
    unfold deliver at he
    split at he
    · rcases List.mem_append.1 he with h | h
      · exact run_callback_events env cb v e h
      · exact ih e h
    · exact run_callback_events env cb v e he

theorem filter_deliver (env : Env) (cb : Callback) (vs : List (Option as_val))
    (p : Event → Bool) (hp : ∀ e, e.is_callback_event = true → p e = false) :
    (deliver env cb vs).filter p = [] := by
  rw [List.filter_eq_nil_iff]
  intro e he
  simp [hp e (deliver_events env cb vs e he)]

theorem filter_is_example_cleanup_deliver (env : Env) (cb : Callback)
    (vs : List (Option as_val)) :
    (deliver env cb vs).filter Event.is_example_cleanup = [] :=
  filter_deliver env cb vs _ (fun e h => by
    cases e <;> simp_all [Event.is_callback_event, Event.is_example_cleanup])

theorem filter_is_query_init_deliver (env : Env) (cb : Callback)
    (vs : List (Option as_val)) :
    (deliver env cb vs).filter Event.is_query_init = [] :=
  filter_deliver env cb vs _ (fun e h => by
    cases e <;> simp_all [Event.is_callback_event, Event.is_query_init])

theorem filter_is_query_destroy_deliver (env : Env) (cb : Callback)
    (vs : List (Option as_val)) :
    (deliver env cb vs).filter Event.is_query_destroy = [] :=
  filter_deliver env cb vs _ (fun e h => by
    cases e <;> simp_all [Event.is_callback_event, Event.is_query_destroy])

theorem filter_is_query_init_or_destroy_deliver (env : Env) (cb : Callback)
    (vs : List (Option as_val)) :
    (deliver env cb vs).filter Event.is_query_init_or_destroy = [] :=
  filter_deliver env cb vs _ (fun e h => by
    cases e <;> simp_all [Event.is_callback_event, Event.is_query_init_or_destroy])

theorem query_lifecycle_callback_events (l r : List Event) (live : Bool)
    (h : ∀ e ∈ l, e.is_callback_event = true) :
    query_lifecycle (l ++ r) live = query_lifecycle r live := by
  induction l with
  | nil => rfl
  | cons x xs ih =>
    have hx := h x (List.mem_cons_self x xs)
    have hxs : ∀ e ∈ xs, e.is_callback_event = true :=
      fun e he => h e (List.mem_cons_of_mem x he)
    cases x <;>
      first
        | (simp only [List.cons_append, query_lifecycle]; exact ih hxs)
        | (simp [Event.is_callback_event] at hx)

theorem query_lifecycle_deliver (env : Env) (cb : Callback) (vs : List (Option as_val))
    (r : List Event) (live : Bool) :
    query_lifecycle (deliver env cb vs ++ r) live = query_lifecycle r live :=
  query_lifecycle_callback_events _ r live (deliver_events env cb vs)

theorem filter_is_oracle_call_deliver_query_cb (env : Env) (vs : List (Option as_val)) :
    (deliver env .query_cb vs).filter Event.is_oracle_call = dump_calls vs := by
  induction vs with
  | nil => rfl
  | cons v vs ih =>
    rcases v with _ | v
    · simp [deliver, run_callback, query_cb, Event.is_oracle_call, dump_calls, ih]
    · cases v <;>
        simp [deliver, run_callback, query_cb, as_record_fromval, Event.is_oracle_call,
          dump_calls, ih]

theorem filter_is_oracle_call_deliver_query_cb_map (env : Env)
    (vs : List (Option as_val)) :
    (deliver env .query_cb_map vs).filter Event.is_oracle_call = [] := by
  induction vs with
  | nil => rfl
  | cons v vs ih =>
    rcases v with _ | v
    · simp [deliver, run_callback, query_cb_map, Event.is_oracle_call, ih]
    · cases v <;>
        simp [deliver, run_callback, query_cb_map, as_map_fromval, Event.is_oracle_call, ih]

theorem getLast?_append_cons {α : Type} (l : List α) (b : α) (m : List α) :
    (l ++ b :: m).getLast? = (b :: m).getLast? :=
  List.getLast?_append_of_ne_nil l (List.cons_ne_nil b m)

theorem getLast?_cons_append_cons {α : Type} (a : α) (l : List α) (b : α) (m : List α) :
    (a :: (l ++ b :: m)).getLast? = (b :: m).getLast? :=
  getLast?_append_cons (a :: l) b m

/-! ## The callbacks -/

/-- C10: both query callbacks return true for every input value, null included, so they
never ask the library to stop the query. -/
theorem callbacks_always_continue (env : Env) (p_val : Option as_val) :
    (query_cb p_val).1 = true ∧ (query_cb_map env p_val).1 = true := by
  constructor
  · unfold query_cb
    rcases p_val with _ | v
    · rfl
    · cases v <;> rfl
  · unfold query_cb_map
    rcases p_val with _ | v
    · rfl
    · cases v <;> rfl

/-- C7: for a non-null value `query_cb` calls `example_dump_record` exactly once, on the
record the value holds, when the value is a record, and not at all otherwise; for null it
issues nothing but the log line saying that the query is complete. -/
theorem query_cb_dumps_records (v : as_val) :
    (query_cb (some v)).2.filter Event.is_dump_record =
        (match as_record_fromval v with
          | some r => [Event.example_dump_record r]
          | none => [])
      ∧ (query_cb none).2 = [.LOG "query callback returned null - query is complete" []] := by
  constructor
  · cases v <;> rfl
  · rfl

/-- C8 fails as stated: handed a value that is not a map, here the integer 7,
`query_cb_map` does not log the string form of the value at all. -/
theorem query_cb_map_skips_non_map :
    (query_cb_map ok_env (some (.scalar (.integer 7)))).2.filter
        (Event.logs_text (ok_env.as_val_tostring (.scalar (.integer 7)))) = []
      ∧ (query_cb_map ok_env (some (.scalar (.integer 7)))).2 =
        [.LOG "query callback returned non-as_map object" []] := by
  decide

/-- C8, amended: for a non-null value that is a map `query_cb_map` logs the string form
of the value exactly once; for a non-null value that is not a map it logs only that the
object is not a map, and never the string form. -/
theorem query_cb_map_logs_maps (env : Env) (v : as_val) :
    (∀ m, v = .map m →
        (query_cb_map env (some v)).2.filter (Event.logs_text (env.as_val_tostring v)) =
          [.LOG "query callback returned %s" [.str (env.as_val_tostring v)]])
      ∧ (as_map_fromval v = none →
        (query_cb_map env (some v)).2 =
          [.LOG "query callback returned non-as_map object" []]) := by
  constructor
  · rintro m rfl
    simp [query_cb_map, as_map_fromval, Event.logs_text]
  · intro h
    cases v <;> simp_all [query_cb_map, as_map_fromval]

/-- C8, amended, at a map with one entry and at a record. -/
theorem query_cb_map_logs_maps_witness :
    (query_cb_map ok_env (some (.map [(.string "result", .integer 1)]))).2.filter
        (Event.logs_text "value") = [.LOG "query callback returned %s" [.str "value"]]
      ∧ (query_cb_map ok_env (some (.record (profile "Mary" "ghjks")))).2 =
        [.LOG "query callback returned non-as_map object" []] :=
  ⟨(query_cb_map_logs_maps ok_env (.map [(.string "result", .integer 1)])).1 _ rfl,
    (query_cb_map_logs_maps ok_env (.record (profile "Mary" "ghjks"))).2 rfl⟩

/-! ## insert_records -/

/-- C3: `insert_records` returns true exactly when all five puts succeed; and when the
puts for keys 1..k-1 succeed and the put for key k fails, it returns false having issued
exactly the puts for keys 1..k, in that order. -/
theorem insert_records_result (env : Env) (st : Store) :
    ((insert_records env ⟨[], st⟩).1 = true ↔
        put_ok env 1 ∧ put_ok env 2 ∧ put_ok env 3 ∧ put_ok env 4 ∧ put_ok env 5)
      ∧ ∀ k : Nat, 1 ≤ k → k ≤ 5 → (∀ j : Nat, 1 ≤ j → j < k → put_ok env j) →
          ¬ put_ok env k →
          (insert_records env ⟨[], st⟩).1 = false
            ∧ put_keys (insert_records env ⟨[], st⟩).2.trace =
              (List.range' 1 k).map Int.ofNat := by
  have key : ∀ id : Int, as_key_init_int64 env.g_namespace env.g_set id = test_key env id :=
    fun _ => rfl
  have kv : ∀ id : Int, (test_key env id).value = id := fun _ => rfl
  constructor
  · by_cases h1 : put_ok env 1 <;> by_cases h2 : put_ok env 2 <;>
      by_cases h3 : put_ok env 3 <;> by_cases h4 : put_ok env 4 <;>
      by_cases h5 : put_ok env 5 <;>
      simp only [put_ok] at h1 h2 h3 h4 h5 <;>
      simp [insert_records, emit_mk, aerospike_key_put_mk, key, put_ok, *]
  · intro k hk1 hk5 hprev hk
    obtain rfl | rfl | rfl | rfl | rfl : k = 1 ∨ k = 2 ∨ k = 3 ∨ k = 4 ∨ k = 5 := by omega
    · simp only [put_ok, Nat.cast_one] at hk
      simp [insert_records, emit_mk, aerospike_key_put_mk, key, kv, put_keys, put_failed,
        List.range', *]
    · have h1 := hprev 1 (by norm_num) (by norm_num)
      simp only [put_ok, Nat.cast_one, Nat.cast_ofNat] at hk h1
      simp [insert_records, emit_mk, aerospike_key_put_mk, key, kv, put_keys, put_failed,
        List.range', *]
    · have h1 := hprev 1 (by norm_num) (by norm_num)
      have h2 := hprev 2 (by norm_num) (by norm_num)
      simp only [put_ok, Nat.cast_one, Nat.cast_ofNat] at hk h1 h2
      simp [insert_records, emit_mk, aerospike_key_put_mk, key, kv, put_keys, put_failed,
        List.range', *]
    · have h1 := hprev 1 (by norm_num) (by norm_num)
      have h2 := hprev 2 (by norm_num) (by norm_num)
      have h3 := hprev 3 (by norm_num) (by norm_num)
      simp only [put_ok, Nat.cast_one, Nat.cast_ofNat] at hk h1 h2 h3
      simp [insert_records, emit_mk, aerospike_key_put_mk, key, kv, put_keys, put_failed,
        List.range', *]
    · have h1 := hprev 1 (by norm_num) (by norm_num)
      have h2 := hprev 2 (by norm_num) (by norm_num)
      have h3 := hprev 3 (by norm_num) (by norm_num)
      have h4 := hprev 4 (by norm_num) (by norm_num)
      simp only [put_ok, Nat.cast_one, Nat.cast_ofNat] at hk h1 h2 h3 h4
      simp [insert_records, emit_mk, aerospike_key_put_mk, key, kv, put_keys, put_failed,
        List.range', *]

/-- C3 at a run in which the put for key 3 fails: `insert_records` returns false after
the puts for keys 1, 2 and 3. -/
theorem insert_records_result_witness :
    (insert_records put3_error_env start).1 = false
      ∧ put_keys (insert_records put3_error_env start).2.trace = [1, 2, 3] :=
  (insert_records_result put3_error_env []).2 3 (by decide) (by decide)
    (fun j h1 h3 => by
      obtain rfl | rfl : j = 1 ∨ j = 2 := by omega
      · show (put3_error_env.aerospike_key_put (test_key put3_error_env 1)).status = 0
        decide
      · show (put3_error_env.aerospike_key_put (test_key put3_error_env 2)).status = 0
        decide)
    (by
      show ¬ (put3_error_env.aerospike_key_put (test_key put3_error_env 3)).status = 0
      decide)

/-- C4: starting from a store with no test records, when `insert_records` returns true
the store holds exactly five records, keyed 1..5, each with exactly the bins `username`
and `password` and the five sample values; selecting the records whose username equals
"Mary" then yields exactly the record with key 4, whose password is "ghjks". -/
theorem insert_records_store (env : Env) (t : List Event)
    (h : (insert_records env ⟨t, []⟩).1 = true) :
    (insert_records env ⟨t, []⟩).2.store =
        [(test_key env 1, profile "Charlie" "cpass"),
         (test_key env 2, profile "Bill" "hknfpkj"),
         (test_key env 3, profile "Doug" "dj6554"),
         (test_key env 4, profile "Mary" "ghjks"),
         (test_key env 5, profile "Julie" "zzxzxvv")]
      ∧ select_string_equals (insert_records env ⟨t, []⟩).2.store "username" "Mary" =
        [(test_key env 4, profile "Mary" "ghjks")]
      ∧ (select_string_equals (insert_records env ⟨t, []⟩).2.store "username" "Mary").map
          (fun e => as_record_get_str e.2 "password") = [some "ghjks"] := by
  have key : ∀ id : Int, as_key_init_int64 env.g_namespace env.g_set id = test_key env id :=
    fun _ => rfl
  have hst : (insert_records env ⟨t, []⟩).2.store =
        [(test_key env 1, profile "Charlie" "cpass"),
         (test_key env 2, profile "Bill" "hknfpkj"),
         (test_key env 3, profile "Doug" "dj6554"),
         (test_key env 4, profile "Mary" "ghjks"),
         (test_key env 5, profile "Julie" "zzxzxvv")] := by
    by_cases h1 : (env.aerospike_key_put (test_key env 1)).status = AEROSPIKE_OK
    swap
    · simp [insert_records, emit_mk, aerospike_key_put_mk, key, *] at h
    by_cases h2 : (env.aerospike_key_put (test_key env 2)).status = AEROSPIKE_OK
    swap
    · simp [insert_records, emit_mk, aerospike_key_put_mk, key, *] at h
    by_cases h3 : (env.aerospike_key_put (test_key env 3)).status = AEROSPIKE_OK
    swap
    · simp [insert_records, emit_mk, aerospike_key_put_mk, key, *] at h
    by_cases h4 : (env.aerospike_key_put (test_key env 4)).status = AEROSPIKE_OK
    swap
    · simp [insert_records, emit_mk, aerospike_key_put_mk, key, *] at h
    by_cases h5 : (env.aerospike_key_put (test_key env 5)).status = AEROSPIKE_OK
    swap
    · simp [insert_records, emit_mk, aerospike_key_put_mk, key, *] at h
    simp [insert_records, emit_mk, aerospike_key_put_mk, key, set_str_1, set_str_2,
      set_str_3, set_str_4, set_str_5, store_put, test_key_inj, *]
  have hsel : select_string_equals (insert_records env ⟨t, []⟩).2.store "username" "Mary" =
      [(test_key env 4, profile "Mary" "ghjks")] := by
    rw [hst]
    simp [select_string_equals, profile]
  refine ⟨hst, hsel, ?_⟩
  rw [hsel]
  rfl

/-- C4 at the run in which every call succeeds. -/
theorem insert_records_store_witness :
    (insert_records ok_env start).1 = true
      ∧ (insert_records ok_env start).2.store =
        [(test_key ok_env 1, profile "Charlie" "cpass"),
         (test_key ok_env 2, profile "Bill" "hknfpkj"),
         (test_key ok_env 3, profile "Doug" "dj6554"),
         (test_key ok_env 4, profile "Mary" "ghjks"),
         (test_key ok_env 5, profile "Julie" "zzxzxvv")] :=
  ⟨by decide, (insert_records_store ok_env [] (by decide)).1⟩

/-! ## main -/

set_option maxHeartbeats 4000000

/-- C6: when option parsing succeeds, `example_cleanup` is called exactly once and no
call other than log output follows it; the process ends with status 0 when UDF
registration, the five puts, reading the test records and both queries succeed, and with
`exit(-1)` otherwise. When option parsing fails the process exits with -1 and
`example_get_opts` is the only call made. -/
theorem main_cleans_up_once (env : Env) (st : Store) :
    (env.example_get_opts = true →
        ((main env ⟨[], st⟩).2.trace.filter Event.is_example_cleanup).length = 1
        ∧ ((main env ⟨[], st⟩).2.trace.filter (fun e => !e.is_log)).getLast? =
            some .example_cleanup
        ∧ ((main env ⟨[], st⟩).1 = .returned 0 ↔
            env.example_register_udf = true
              ∧ (put_ok env 1 ∧ put_ok env 2 ∧ put_ok env 3 ∧ put_ok env 4 ∧ put_ok env 5)
              ∧ env.example_read_test_records = true
              ∧ query_ok env .query_cb ∧ query_ok env .query_cb_map)
        ∧ ((main env ⟨[], st⟩).1 = .returned 0 ∨ (main env ⟨[], st⟩).1 = .exited (-1)))
      ∧ (env.example_get_opts = false →
        main env ⟨[], st⟩ =
          (.exited (-1), ⟨[.example_get_opts env.argv env.EXAMPLE_MULTI_KEY_OPTS], st⟩)) := by
  constructor; swap
  · intro h
    simp [main, emit_mk, h]
  intro h
  by_cases hu : env.example_register_udf = true; swap
  · simp [main, insert_records, cleanup, emit_mk, example_remove_test_records_mk,
      aerospike_key_put_mk, aerospike_query_foreach_mk, as_key_init_int64_eq, put_failed,
      query_failed, index_failed,
      Event.is_example_cleanup, Event.is_log, put_ok, query_ok,
      filter_is_example_cleanup_deliver, getLast?_append_cons, getLast?_cons_append_cons, *]
  have hi : (env.aerospike_index_create.status = AEROSPIKE_OK ∧
        env.aerospike_index_create_wait.status = AEROSPIKE_OK) ∨
      (env.aerospike_index_create.status = AEROSPIKE_OK ∧
        env.aerospike_index_create_wait.status ≠ AEROSPIKE_OK) ∨
      env.aerospike_index_create.status ≠ AEROSPIKE_OK := by tauto
  rcases hi with ⟨hic, hiw⟩ | ⟨hic, hiw⟩ | hic
  all_goals
    by_cases hp1 : (env.aerospike_key_put (test_key env 1)).status = AEROSPIKE_OK
    swap
    · simp [main, insert_records, cleanup, emit_mk, example_remove_test_records_mk,
        aerospike_key_put_mk, aerospike_query_foreach_mk, as_key_init_int64_eq, put_failed,
        query_failed, index_failed,
        Event.is_example_cleanup, Event.is_log, put_ok, query_ok,
        filter_is_example_cleanup_deliver, getLast?_append_cons, getLast?_cons_append_cons, *]
    by_cases hp2 : (env.aerospike_key_put (test_key env 2)).status = AEROSPIKE_OK
    swap
    · simp [main, insert_records, cleanup, emit_mk, example_remove_test_records_mk,
        aerospike_key_put_mk, aerospike_query_foreach_mk, as_key_init_int64_eq, put_failed,
        query_failed, index_failed,
        Event.is_example_cleanup, Event.is_log, put_ok, query_ok,
        filter_is_example_cleanup_deliver, getLast?_append_cons, getLast?_cons_append_cons, *]
    by_cases hp3 : (env.aerospike_key_put (test_key env 3)).status = AEROSPIKE_OK
    swap
    · simp [main, insert_records, cleanup, emit_mk, example_remove_test_records_mk,
        aerospike_key_put_mk, aerospike_query_foreach_mk, as_key_init_int64_eq, put_failed,
        query_failed, index_failed,
        Event.is_example_cleanup, Event.is_log, put_ok, query_ok,
        filter_is_example_cleanup_deliver, getLast?_append_cons, getLast?_cons_append_cons, *]
    by_cases hp4 : (env.aerospike_key_put (test_key env 4)).status = AEROSPIKE_OK
    swap
    · simp [main, insert_records, cleanup, emit_mk, example_remove_test_records_mk,
        aerospike_key_put_mk, aerospike_query_foreach_mk, as_key_init_int64_eq, put_failed,
        query_failed, index_failed,
        Event.is_example_cleanup, Event.is_log, put_ok, query_ok,
        filter_is_example_cleanup_deliver, getLast?_append_cons, getLast?_cons_append_cons, *]
    by_cases hp5 : (env.aerospike_key_put (test_key env 5)).status = AEROSPIKE_OK
    swap
    · simp [main, insert_records, cleanup, emit_mk, example_remove_test_records_mk,
        aerospike_key_put_mk, aerospike_query_foreach_mk, as_key_init_int64_eq, put_failed,
        query_failed, index_failed,
        Event.is_example_cleanup, Event.is_log, put_ok, query_ok,
        filter_is_example_cleanup_deliver, getLast?_append_cons, getLast?_cons_append_cons, *]
    by_cases hr : env.example_read_test_records = true
    swap
    · simp [main, insert_records, cleanup, emit_mk, example_remove_test_records_mk,
        aerospike_key_put_mk, aerospike_query_foreach_mk, as_key_init_int64_eq, put_failed,
        query_failed, index_failed,
        Event.is_example_cleanup, Event.is_log, put_ok, query_ok,
        filter_is_example_cleanup_deliver, getLast?_append_cons, getLast?_cons_append_cons, *]
    by_cases hq1 : (env.aerospike_query_foreach .query_cb).status = AEROSPIKE_OK
    swap
    · simp [main, insert_records, cleanup, emit_mk, example_remove_test_records_mk,
        aerospike_key_put_mk, aerospike_query_foreach_mk, as_key_init_int64_eq, put_failed,
        query_failed, index_failed,
        Event.is_example_cleanup, Event.is_log, put_ok, query_ok,
        filter_is_example_cleanup_deliver, getLast?_append_cons, getLast?_cons_append_cons, *]
    by_cases hq2 : (env.aerospike_query_foreach .query_cb_map).status = AEROSPIKE_OK
    swap
    · simp [main, insert_records, cleanup, emit_mk, example_remove_test_records_mk,
        aerospike_key_put_mk, aerospike_query_foreach_mk, as_key_init_int64_eq, put_failed,
        query_failed, index_failed,
        Event.is_example_cleanup, Event.is_log, put_ok, query_ok,
        filter_is_example_cleanup_deliver, getLast?_append_cons, getLast?_cons_append_cons, *]
    simp [main, insert_records, cleanup, emit_mk, example_remove_test_records_mk,
      aerospike_key_put_mk, aerospike_query_foreach_mk, as_key_init_int64_eq, put_failed,
      query_failed, index_failed,
      Event.is_example_cleanup, Event.is_log, put_ok, query_ok,
      filter_is_example_cleanup_deliver, getLast?_append_cons, getLast?_cons_append_cons, *]

/-- C6 at the run in which every call succeeds: `example_cleanup` is called once, only
log output follows it, and `main` returns 0. -/
theorem main_cleans_up_once_witness :
    ok_env.example_get_opts = true
      ∧ ((main ok_env start).2.trace.filter Event.is_example_cleanup).length = 1
      ∧ ((main ok_env start).2.trace.filter (fun e => !e.is_log)).getLast? =
          some .example_cleanup :=
  ⟨rfl, ((main_cleans_up_once ok_env []).1 rfl).1, ((main_cleans_up_once ok_env []).1 rfl).2.1⟩

/-- C1 fails as stated: in a run in which every call succeeds and the filtered query
finds the record of Mary, `query_cb` calls `example_dump_record` during the query, so the
calls into the harness and the cluster client are nineteen, not the eighteen listed. -/
theorem all_succeed_trace_has_dump_record :
    (main ok_env start).1 = .returned 0
      ∧ Event.example_dump_record (profile "Mary" "ghjks") ∈ (main ok_env start).2.trace
      ∧ ((main ok_env start).2.trace.filter Event.is_oracle_call).length = 19
      ∧ (main ok_env start).2.trace.filter Event.is_oracle_call ≠
        [.example_get_opts ok_env.argv ok_env.EXAMPLE_MULTI_KEY_OPTS,
         .example_connect_to_aerospike_with_udf_config "../udf/",
         .example_remove_test_records,
         .example_remove_index "profileindex",
         .example_register_udf "../udf/profile.lua",
         .aerospike_index_create ok_env.g_namespace ok_env.g_set "username" "profileindex"
           .AS_INDEX_STRING,
         .aerospike_index_create_wait 0,
         .aerospike_key_put (test_key ok_env 1) (profile "Charlie" "cpass"),
         .aerospike_key_put (test_key ok_env 2) (profile "Bill" "hknfpkj"),
         .aerospike_key_put (test_key ok_env 3) (profile "Doug" "dj6554"),
         .aerospike_key_put (test_key ok_env 4) (profile "Mary" "ghjks"),
         .aerospike_key_put (test_key ok_env 5) (profile "Julie" "zzxzxvv"),
         .example_read_test_records,
         .aerospike_query_foreach
           ⟨ok_env.g_namespace, ok_env.g_set, ⟨1, [⟨"username", .string_equals "Mary"⟩]⟩, none⟩
           .query_cb,
         .aerospike_query_foreach
           ⟨ok_env.g_namespace, ok_env.g_set, ⟨0, []⟩,
             some ⟨"profile", "check_password", [.string "ghjks"]⟩⟩
           .query_cb_map,
         .example_remove_test_records,
         .example_remove_index "profileindex",
         .example_cleanup] := by
  decide

/-- C1, amended: in a run of `main` in which every call succeeds, the calls into the
harness and the cluster client are, in this order: parse options; connect; remove test
records; remove index "profileindex"; register UDF "../udf/profile.lua"; create the
string index "profileindex" on bin "username"; wait for the index; five puts with keys 1
to 5; read test records; a query executed with `query_cb`, during which `query_cb` calls
`example_dump_record` once for each record handed to it; a query executed with
`query_cb_map`; remove test records; remove index "profileindex"; `example_cleanup`; and
`main` returns 0. -/
theorem main_all_succeed_trace (env : Env) (st : Store) (h : all_calls_succeed env) :
    (main env ⟨[], st⟩).2.trace.filter Event.is_oracle_call =
        [.example_get_opts env.argv env.EXAMPLE_MULTI_KEY_OPTS,
         .example_connect_to_aerospike_with_udf_config "../udf/",
         .example_remove_test_records,
         .example_remove_index "profileindex",
         .example_register_udf "../udf/profile.lua",
         .aerospike_index_create env.g_namespace env.g_set "username" "profileindex"
           .AS_INDEX_STRING,
         .aerospike_index_create_wait 0,
         .aerospike_key_put (test_key env 1) (profile "Charlie" "cpass"),
         .aerospike_key_put (test_key env 2) (profile "Bill" "hknfpkj"),
         .aerospike_key_put (test_key env 3) (profile "Doug" "dj6554"),
         .aerospike_key_put (test_key env 4) (profile "Mary" "ghjks"),
         .aerospike_key_put (test_key env 5) (profile "Julie" "zzxzxvv"),
         .example_read_test_records,
         .aerospike_query_foreach
           ⟨env.g_namespace, env.g_set, ⟨1, [⟨"username", .string_equals "Mary"⟩]⟩, none⟩
           .query_cb]
        ++ dump_calls (env.query_values .query_cb)
        ++ [.aerospike_query_foreach
           ⟨env.g_namespace, env.g_set, ⟨0, []⟩,
             some ⟨"profile", "check_password", [.string "ghjks"]⟩⟩
           .query_cb_map,
         .example_remove_test_records,
         .example_remove_index "profileindex",
         .example_cleanup]
      ∧ (main env ⟨[], st⟩).1 = .returned 0 := by
  obtain ⟨ho, hu, hic, hiw, ⟨hp1, hp2, hp3, hp4, hp5⟩, hr, hq1, hq2⟩ := h
  simp only [put_ok, query_ok] at hp1 hp2 hp3 hp4 hp5 hq1 hq2
  have e1 : UDF_FILE_PATH = "../udf/profile.lua" := by decide
  have e2 : UDF_USER_PATH = "../udf/" := by decide
  have e3 : USERNAME_INDEX_NAME = "profileindex" := by decide
  have e4 : UDF_MODULE = "profile" := by decide
  simp [main, insert_records, cleanup, emit_mk, example_remove_test_records_mk,
    aerospike_key_put_mk, aerospike_query_foreach_mk, as_key_init_int64_eq, put_failed,
    query_failed, index_failed,
    Event.is_oracle_call, set_str_1, set_str_2, set_str_3, set_str_4, set_str_5,
    as_query_init, as_query_where_inita, as_query_where, as_string_equals, as_query_apply,
    as_arraylist_init, as_arraylist_append_str, filter_is_oracle_call_deliver_query_cb,
    filter_is_oracle_call_deliver_query_cb_map, e1, e2, e3, e4, *]

/-- C1, amended, at the run in which every call succeeds and the filtered query finds
the record of Mary: `main` returns 0 and the trace holds the one `example_dump_record`
call between the two queries. -/
theorem main_all_succeed_trace_witness :
    all_calls_succeed ok_env
      ∧ (main ok_env start).1 = .returned 0
      ∧ ((main ok_env start).2.trace.filter Event.is_oracle_call).drop 13 =
        [.aerospike_query_foreach
           ⟨"test", "eg-set", ⟨1, [⟨"username", .string_equals "Mary"⟩]⟩, none⟩ .query_cb,
         .example_dump_record (profile "Mary" "ghjks"),
         .aerospike_query_foreach
           ⟨"test", "eg-set", ⟨0, []⟩, some ⟨"profile", "check_password", [.string "ghjks"]⟩⟩
           .query_cb_map,
         .example_remove_test_records,
         .example_remove_index "profileindex",
         .example_cleanup] :=
  have h : all_calls_succeed ok_env := by
    simp [all_calls_succeed, put_ok, query_ok, ok_env, ok_reply]
  ⟨h, (main_all_succeed_trace ok_env [] h).2,
    congrArg (List.drop 13) (main_all_succeed_trace ok_env [] h).1⟩

/-- C5, evaluated: in the run in which every call succeeds, the query executed with
`query_cb_map` applies `profile.check_password` to the argument list ["ghjks"], and its
where-predicate list is empty: it holds no predicate on `username`. -/
theorem second_query_has_no_where :
    queries_run .query_cb_map (main ok_env start).2.trace =
        [⟨"test", "eg-set", ⟨0, []⟩, some ⟨"profile", "check_password", [.string "ghjks"]⟩⟩]
      ∧ (queries_run .query_cb_map (main ok_env start).2.trace).all
          (fun q => !q.where_.entries.contains ⟨"username", .string_equals "Mary"⟩) = true := by
  decide

/-- C9: on every path through `main` that reaches an `as_query_init`, the
`as_query_init` and `as_query_destroy` calls alternate, starting with an init and ending
with a destroy: there are as many destroys as inits, and the query object is never
initialised twice in a row, destroyed twice, or filled in or executed while destroyed. -/
theorem main_query_lifecycle (env : Env) (st : Store)
    (h : (main env ⟨[], st⟩).2.trace.filter Event.is_query_init ≠ []) :
    query_lifecycle (main env ⟨[], st⟩).2.trace false = some false
      ∧ ((main env ⟨[], st⟩).2.trace.filter Event.is_query_init_or_destroy =
            [.as_query_init env.g_namespace env.g_set, .as_query_destroy]
          ∨ (main env ⟨[], st⟩).2.trace.filter Event.is_query_init_or_destroy =
            [.as_query_init env.g_namespace env.g_set, .as_query_destroy,
             .as_query_init env.g_namespace env.g_set, .as_query_destroy])
      ∧ ((main env ⟨[], st⟩).2.trace.filter Event.is_query_init).length =
          ((main env ⟨[], st⟩).2.trace.filter Event.is_query_destroy).length := by
  by_cases ho : env.example_get_opts = true; swap
  · simp [main, emit_mk, Event.is_query_init, ho] at h
  by_cases hu : env.example_register_udf = true; swap
  · simp [main, insert_records, cleanup, emit_mk, example_remove_test_records_mk,
      aerospike_key_put_mk, aerospike_query_foreach_mk, as_key_init_int64_eq, put_failed,
      query_failed, index_failed,
      Event.is_query_init, Event.is_query_destroy, Event.is_query_init_or_destroy,
      query_lifecycle, filter_is_query_init_deliver, filter_is_query_destroy_deliver,
      filter_is_query_init_or_destroy_deliver, query_lifecycle_deliver, *] at h ⊢
  have hi : (env.aerospike_index_create.status = AEROSPIKE_OK ∧
        env.aerospike_index_create_wait.status = AEROSPIKE_OK) ∨
      (env.aerospike_index_create.status = AEROSPIKE_OK ∧
        env.aerospike_index_create_wait.status ≠ AEROSPIKE_OK) ∨
      env.aerospike_index_create.status ≠ AEROSPIKE_OK := by tauto
  rcases hi with ⟨hic, hiw⟩ | ⟨hic, hiw⟩ | hic
  all_goals
    by_cases hp1 : (env.aerospike_key_put (test_key env 1)).status = AEROSPIKE_OK
    swap
    · simp [main, insert_records, cleanup, emit_mk, example_remove_test_records_mk,
        aerospike_key_put_mk, aerospike_query_foreach_mk, as_key_init_int64_eq, put_failed,
        query_failed, index_failed,
        Event.is_query_init, Event.is_query_destroy, Event.is_query_init_or_destroy,
        query_lifecycle, filter_is_query_init_deliver, filter_is_query_destroy_deliver,
        filter_is_query_init_or_destroy_deliver, query_lifecycle_deliver, *] at h ⊢
    by_cases hp2 : (env.aerospike_key_put (test_key env 2)).status = AEROSPIKE_OK
    swap
    · simp [main, insert_records, cleanup, emit_mk, example_remove_test_records_mk,
        aerospike_key_put_mk, aerospike_query_foreach_mk, as_key_init_int64_eq, put_failed,
        query_failed, index_failed,
        Event.is_query_init, Event.is_query_destroy, Event.is_query_init_or_destroy,
        query_lifecycle, filter_is_query_init_deliver, filter_is_query_destroy_deliver,
        filter_is_query_init_or_destroy_deliver, query_lifecycle_deliver, *] at h ⊢
    by_cases hp3 : (env.aerospike_key_put (test_key env 3)).status = AEROSPIKE_OK
    swap
    · simp [main, insert_records, cleanup, emit_mk, example_remove_test_records_mk,
        aerospike_key_put_mk, aerospike_query_foreach_mk, as_key_init_int64_eq, put_failed,
        query_failed, index_failed,
        Event.is_query_init, Event.is_query_destroy, Event.is_query_init_or_destroy,
        query_lifecycle, filter_is_query_init_deliver, filter_is_query_destroy_deliver,
        filter_is_query_init_or_destroy_deliver, query_lifecycle_deliver, *] at h ⊢
    by_cases hp4 : (env.aerospike_key_put (test_key env 4)).status = AEROSPIKE_OK
    swap
    · simp [main, insert_records, cleanup, emit_mk, example_remove_test_records_mk,
        aerospike_key_put_mk, aerospike_query_foreach_mk, as_key_init_int64_eq, put_failed,
        query_failed, index_failed,
        Event.is_query_init, Event.is_query_destroy, Event.is_query_init_or_destroy,
        query_lifecycle, filter_is_query_init_deliver, filter_is_query_destroy_deliver,
        filter_is_query_init_or_destroy_deliver, query_lifecycle_deliver, *] at h ⊢
    by_cases hp5 : (env.aerospike_key_put (test_key env 5)).status = AEROSPIKE_OK
    swap
    · simp [main, insert_records, cleanup, emit_mk, example_remove_test_records_mk,
        aerospike_key_put_mk, aerospike_query_foreach_mk, as_key_init_int64_eq, put_failed,
        query_failed, index_failed,
        Event.is_query_init, Event.is_query_destroy, Event.is_query_init_or_destroy,
        query_lifecycle, filter_is_query_init_deliver, filter_is_query_destroy_deliver,
        filter_is_query_init_or_destroy_deliver, query_lifecycle_deliver, *] at h ⊢
    by_cases hr : env.example_read_test_records = true
    swap
    · simp [main, insert_records, cleanup, emit_mk, example_remove_test_records_mk,
        aerospike_key_put_mk, aerospike_query_foreach_mk, as_key_init_int64_eq, put_failed,
        query_failed, index_failed,
        Event.is_query_init, Event.is_query_destroy, Event.is_query_init_or_destroy,
        query_lifecycle, filter_is_query_init_deliver, filter_is_query_destroy_deliver,
        filter_is_query_init_or_destroy_deliver, query_lifecycle_deliver, *] at h ⊢
    by_cases hq1 : (env.aerospike_query_foreach .query_cb).status = AEROSPIKE_OK
    swap
    · simp [main, insert_records, cleanup, emit_mk, example_remove_test_records_mk,
        aerospike_key_put_mk, aerospike_query_foreach_mk, as_key_init_int64_eq, put_failed,
        query_failed, index_failed,
        Event.is_query_init, Event.is_query_destroy, Event.is_query_init_or_destroy,
        query_lifecycle, filter_is_query_init_deliver, filter_is_query_destroy_deliver,
        filter_is_query_init_or_destroy_deliver, query_lifecycle_deliver, *] at h ⊢
    by_cases hq2 : (env.aerospike_query_foreach .query_cb_map).status = AEROSPIKE_OK
    swap
    · simp [main, insert_records, cleanup, emit_mk, example_remove_test_records_mk,
        aerospike_key_put_mk, aerospike_query_foreach_mk, as_key_init_int64_eq, put_failed,
        query_failed, index_failed,
        Event.is_query_init, Event.is_query_destroy, Event.is_query_init_or_destroy,
        query_lifecycle, filter_is_query_init_deliver, filter_is_query_destroy_deliver,
        filter_is_query_init_or_destroy_deliver, query_lifecycle_deliver, *] at h ⊢
    simp [main, insert_records, cleanup, emit_mk, example_remove_test_records_mk,
      aerospike_key_put_mk, aerospike_query_foreach_mk, as_key_init_int64_eq, put_failed,
      query_failed, index_failed,
      Event.is_query_init, Event.is_query_destroy, Event.is_query_init_or_destroy,
      query_lifecycle, filter_is_query_init_deliver, filter_is_query_destroy_deliver,
      filter_is_query_init_or_destroy_deliver, query_lifecycle_deliver, *] at h ⊢

/-- C9 at the run in which every call succeeds: two inits, each followed by its
destroy. -/
theorem main_query_lifecycle_witness :
    (main ok_env start).2.trace.filter Event.is_query_init ≠ []
      ∧ query_lifecycle (main ok_env start).2.trace false = some false :=
  ⟨by decide, (main_query_lifecycle ok_env [] (by decide)).1⟩

end QueryWithFilters
